import Mathlib

/-!
Shallow embedding of the clothing-recommendation app (src/app.py, src/train_model.py)
and proofs settling the frozen claims about it.

Modelling conventions:
* Python `str` becomes `String`; Python `int` becomes `Nat` (all constants here are
  nonnegative and far from any overflow boundary — CPython ints are unbounded anyway).
* Python dicts with fixed literal keys become if-chains returning `Option`,
  and `d.get(k, default)` becomes `(table k).getD default`.
* The two external Gemini calls are abstracted by their outcome: a parameter of type
  `Except Unit String` (the call either throws or yields a response text), and JSON
  decoding of the response by a parameter `String → Option PayloadAttrs`
  (`none` = `json.loads` raises; `some` = it parsed, yielding a payload whose four
  fields are each present or absent/null independently, because the source returns
  the `json.loads` result without any shape validation).  Python exception flow that
  the source catches or propagates is made explicit with `Except`.
* The scikit-learn pipeline built by train_model.py (ColumnTransformer over
  OneHotEncoder(handle_unknown="ignore") feeding RandomForestClassifier) is embedded
  as `FittedPipeline`: per-column trained vocabularies, a fitted class-label list, and
  the forest decision function as an abstract total function on the encoded row.
-/

set_option maxRecDepth 4000

/-- `MIN_MUSINSA_PRICE` from `get_price_min_max` in src/app.py: the site minimum that
replaces a zero lower bound in the minPrice parameter. -/
def MIN_MUSINSA_PRICE : Nat := 7200

/-- `PRICE_BOUNDARIES` dict inside `get_price_min_max` (src/app.py): the five trained
price-tier keys and their numeric (min, max) bounds. -/
def PRICE_BOUNDARIES (k : String) : Option (Nat × Nat) :=
  if k = "under_50" then some (0, 50000)
  else if k = "50_100" then some (50000, 99999)
  else if k = "100_200" then some (100000, 199999)
  else if k = "200_300" then some (200000, 299999)
  else if k = "over_300" then some (300000, 10000000)
  else none

/-- `get_price_min_max` (src/app.py): maps a price-tier key to the `price` URL
parameter string `"{min}~{max}"`, the floor-adjusted `minPrice`, and `maxPrice`.
`if not price_key or price_key not in PRICE_BOUNDARIES: price_key = 'under_50'`
is the guard on the first line. -/
def get_price_min_max (price_key : String) : String × Nat × Nat :=
  let key := if price_key = "" ∨ PRICE_BOUNDARIES price_key = none then "under_50" else price_key
  let mm := (PRICE_BOUNDARIES key).getD (0, 50000)
  (toString mm.1 ++ "~" ++ toString mm.2,
   if mm.1 > 0 then mm.1 else MIN_MUSINSA_PRICE,
   mm.2)

/-- `MUSINSA_CATEGORY_CODES` (src/app.py). -/
def MUSINSA_CATEGORY_CODES (k : String) : Option String :=
  if k = "top" then some "001"
  else if k = "bottom" then some "002"
  else if k = "outer" then some "003"
  else none

/-- `MUSINSA_COLOR_CODES` (src/app.py): color → comma-joined filter code group. -/
def MUSINSA_COLOR_CODES (k : String) : Option String :=
  if k = "red" then some "RED,DEEPRED,BRICK,ORANGE"
  else if k = "blue" then some "BLUE,SKYBLUE,NAVY,DEEPBLUE"
  else if k = "black" then some "BLACK"
  else if k = "white" then some "WHITE,IVORY"
  else if k = "gray" then some "GRAY,CHARCOAL"
  else if k = "brown" then some "BROWN,BEIGE,KHAKI"
  else if k = "green" then some "GREEN,LIGHTGREEN,DEEPGREEN"
  else if k = "pink" then some "PINK,CORAL"
  else none

/-- `MUSINSA_FILTER_MAPPING["item_kr"]` (src/app.py): item label → Korean display name. -/
def MUSINSA_ITEM_KR (k : String) : Option String :=
  if k = "tshirt" then some "티셔츠"
  else if k = "long_sleeve" then some "긴팔 티셔츠"
  else if k = "hoodie" then some "후드 티셔츠"
  else if k = "sweatshirt" then some "맨투맨"
  else if k = "shirt" then some "셔츠"
  else if k = "blouse" then some "블라우스"
  else if k = "crop_top" then some "크롭탑"
  else if k = "tank_top" then some "나시"
  else if k = "training_top" then some "트레이닝 상의"
  else if k = "denim" then some "데님"
  else if k = "slacks" then some "슬랙스"
  else if k = "cargo_pants" then some "카고 팬츠"
  else if k = "training_pants" then some "트레이닝 팬츠"
  else if k = "skirt" then some "스커트"
  else if k = "shorts" then some "반바지"
  else if k = "leggings" then some "레깅스"
  else if k = "jacket" then some "재킷"
  else if k = "padding" then some "패딩"
  else if k = "blazer" then some "블레이저"
  else if k = "coat" then some "코트"
  else if k = "cardigan" then some "가디건"
  else if k = "zipup_hoodie" then some "집업 후드"
  else if k = "windbreaker" then some "바람막이"
  else none

/-- `MUSINSA_FILTER_MAPPING["gender_code"]` (src/app.py). -/
def MUSINSA_GENDER_CODE (k : String) : Option String :=
  if k = "male" then some "M"
  else if k = "female" then some "F"
  else none

/-- `MUSINSA_FILTER_MAPPING["color_kr"]` (src/app.py): color → Korean display name. -/
def MUSINSA_COLOR_KR (k : String) : Option String :=
  if k = "black" then some "블랙"
  else if k = "white" then some "화이트"
  else if k = "blue" then some "블루"
  else if k = "gray" then some "그레이"
  else if k = "red" then some "레드"
  else if k = "brown" then some "브라운"
  else if k = "green" then some "그린"
  else if k = "pink" then some "핑크"
  else none

/-- Python `str.strip()` (default whitespace set) over the characters relevant here. -/
def pyStrip (s : String) : String :=
  String.mk (((s.data.dropWhile Char.isWhitespace).reverse.dropWhile Char.isWhitespace).reverse)

/-- Python `str.lower()` (inputs here are ASCII attribute labels). -/
def pyLower (s : String) : String := String.mk (s.data.map Char.toLower)

/-- UTF-8 byte sequence of a string, as `urllib.parse.quote_plus` sees it. -/
def utf8Bytes (s : String) : List UInt8 := s.data.flatMap String.utf8EncodeChar

/-- Uppercase hex digit, as used by `urllib.parse` percent-escapes. -/
def hexUpper (n : Nat) : Char :=
  if n < 10 then Char.ofNat (48 + n) else Char.ofNat (55 + n)

/-- The byte set `urllib.parse` never escapes: ASCII letters, digits, and `_.-~`. -/
def alwaysSafe (b : UInt8) : Bool :=
  decide ((65 ≤ b.toNat ∧ b.toNat ≤ 90) ∨ (97 ≤ b.toNat ∧ b.toNat ≤ 122) ∨
          (48 ≤ b.toNat ∧ b.toNat ≤ 57) ∨ b.toNat = 95 ∨ b.toNat = 46 ∨ b.toNat = 45 ∨
          b.toNat = 126)

/-- `urllib.parse.quote_plus(s, safe)`: spaces become `+`, safe and always-safe bytes
pass through, every other UTF-8 byte becomes an uppercase percent escape. -/
def quote_plus (s : String) (safe : String) : String :=
  String.mk ((utf8Bytes s).flatMap fun b =>
    if b.toNat = 32 then [Char.ofNat 43]
    else if alwaysSafe b || (utf8Bytes safe).contains b then [Char.ofNat b.toNat]
    else [Char.ofNat 37, hexUpper (b.toNat / 16), hexUpper (b.toNat % 16)])

/-- `urllib.parse.urlencode(params, safe)` over an insertion-ordered parameter list
(Python dicts preserve insertion order): `quote_plus` each key and value, join with
`=` and `&`. -/
def urlencode (params : List (String × String)) (safe : String) : String :=
  String.intercalate "&" (params.map fun kv => quote_plus kv.1 safe ++ "=" ++ quote_plus kv.2 safe)

/-- The keyword string assembled in step E of `generate_musinsa_link` (src/app.py):
`" ".join([k for k in [item_kr, color_kr, style] if k]).strip()` where `item_kr` and
`color_kr` are the localized names with fallback to the raw value. -/
def musinsa_search_keywords (item_name color style : String) : String :=
  pyStrip (String.intercalate " "
    (([(MUSINSA_ITEM_KR item_name).getD item_name,
       (MUSINSA_COLOR_KR color).getD color,
       style]).filter (fun k => k != "")))

/-- The `params` dict built in steps A-E of `generate_musinsa_link` (src/app.py), in
insertion order.  Each block is guarded exactly as in the source: Python string
truthiness (`if gender_code:` etc.) is nonemptiness. -/
def musinsa_params (item_type item_name gender style color price : String) :
    List (String × String) :=
  (if (MUSINSA_GENDER_CODE gender).getD "" ≠ "" then
      [("gender", (MUSINSA_GENDER_CODE gender).getD ""),
       ("gf", (MUSINSA_GENDER_CODE gender).getD "")] else [])
  ++ (if (get_price_min_max price).1 ≠ "" then
      [("price", (get_price_min_max price).1),
       ("minPrice", toString (get_price_min_max price).2.1),
       ("maxPrice", toString (get_price_min_max price).2.2)] else [])
  ++ (if (MUSINSA_COLOR_CODES color).getD "" ≠ "" then
      [("color", (MUSINSA_COLOR_CODES color).getD "")] else [])
  ++ (if (MUSINSA_CATEGORY_CODES item_type).getD "" ≠ "" then
      [("category", (MUSINSA_CATEGORY_CODES item_type).getD "")] else [])
  ++ (if musinsa_search_keywords item_name color style ≠ "" then
      [("keyword", musinsa_search_keywords item_name color style)] else [])

/-- Fixed base path of the primary search site (src/app.py, `base_url`). -/
def MUSINSA_BASE_URL : String := "https://www.musinsa.com/search/goods"

/-- `generate_musinsa_link` (src/app.py): returns `(full_url, search_keywords,
price_param)`.  The fourth Python return value `filter_details` is a display-only
copy of the same data for the UI and is not modelled.  The URL is
`f"{base_url}?{urlencode(params, safe='~')}"`. -/
def generate_musinsa_link (item_type item_name gender style color price : String) :
    String × String × String :=
  (MUSINSA_BASE_URL ++ ("?" ++ urlencode (musinsa_params item_type item_name gender style color price) "~"),
   musinsa_search_keywords item_name color style,
   (get_price_min_max price).1)

/-- The fixed-shape attribute record the Gemini extractor returns
(src/app.py `response_schema`: gender, color, style, price).  The source returns the
decoded `json.loads` value as-is, with no shape validation, so each field is modelled
as independently present (`some`) or missing/null (`none`): a payload in which only a
subset of the fields is populated is representable, exactly as it is in the source. -/
structure PayloadAttrs where
  gender : Option String
  color : Option String
  style : Option String
  price : Option String
deriving DecidableEq, Repr

/-- The hard-coded record `parse_user_text_gemini` returns when `client` is `None`
(src/app.py line 233, `Fallback for testing when client is None`); all four fields
populated. -/
def FALLBACK_ATTRS : PayloadAttrs :=
  { gender := some "female", color := some "black", style := some "casual",
    price := some "under_50" }

/-- `parse_user_text_gemini` (src/app.py).  `client` is the module-level Gemini client
(`none` = initialization failed, e.g. missing credential).  `call` abstracts the
outcome of `client.models.generate_content` (`Except.error` = the call raised);
`jsonDecode` abstracts `json.loads` on the response text (`none` = it raised, `some`
= it parsed — to a payload of any shape, since the source performs no validation and
returns the parsed value unchanged).  A raise from either the call or `json.loads` is
caught by the single `try/except`, which returns `None`. -/
def parse_user_text_gemini (client : Option Unit) (call : Except Unit String)
    (jsonDecode : String → Option PayloadAttrs) : Option PayloadAttrs :=
  match client with
  | none => some FALLBACK_ATTRS
  | some _ =>
    match call with
    | Except.error _ => none
    | Except.ok text => jsonDecode text

/-- `refine_search_query_gemini` (src/app.py): with no client, pass the product name
through; on a call failure, fall back to the original; on success, strip and replace
newlines in the response. -/
def refine_search_query_gemini (client : Option Unit) (call : Except Unit String)
    (product_name : String) : String :=
  match client with
  | none => product_name
  | some _ =>
    match call with
    | Except.error _ => product_name
    | Except.ok text => (pyStrip text).replace "\n" " "

/-- A fitted pipeline as produced by `build_and_train_model` in src/train_model.py:
`ColumnTransformer([("cat", OneHotEncoder(handle_unknown="ignore"), cols)])` feeding
`RandomForestClassifier`.  The encoder keeps one trained vocabulary per input column;
the fitted forest is abstracted as its class-label list plus a total decision
function `pick` from the encoded row to a class index (sklearn predict returns
`classes_[argmax of votes]`, always one of the fitted classes). -/
structure FittedPipeline where
  vocab_gender : List String
  vocab_style : List String
  vocab_color : List String
  vocab_price : List String
  classes : List String
  pick : List Bool → Nat

/-- One-hot encoding of one column value under `OneHotEncoder(handle_unknown="ignore")`
(src/train_model.py): a value outside the trained vocabulary encodes as the all-zero
row instead of raising. -/
def oneHot (vocab : List String) (v : String) : List Bool :=
  vocab.map (fun c => c == v)

/-- The encoded feature row for the four categorical inputs, in the column order of
`categorical_cols = ["gender", "style", "color", "price"]` (src/train_model.py). -/
def encodeRow (m : FittedPipeline) (g s c p : String) : List Bool :=
  oneHot m.vocab_gender g ++ oneHot m.vocab_style s ++ oneHot m.vocab_color c ++
    oneHot m.vocab_price p

/-- `model.predict(input_df)[0]` for a pipeline from src/train_model.py: encode the
row (total, by `handle_unknown="ignore"`), run the forest decision, return the picked
fitted class label.  The index is reduced mod the class count, mirroring that sklearn
predict always returns an element of `classes_`. -/
def pipelinePredict (m : FittedPipeline) (g s c p : String) : String :=
  m.classes.getD (m.pick (encodeRow m g s c p) % m.classes.length) ""

/-- `model.predict` viewed through Python exception flow: for pipelines of the
src/train_model.py shape the encoder is total on string rows (unknown categories map
to all-zeros rather than raising) and the fitted forest is total on numeric rows, so
inference never raises; the result is always `Except.ok`. -/
def pipelinePredictE (m : FittedPipeline) (g s c p : String) : Except String String :=
  Except.ok (pipelinePredict m g s c p)

/-- Python `x.lower()` when `x` may be `None` (a missing JSON field): on `None` it
raises `AttributeError`, on a string it lowercases. -/
def pyLowerE : Option String → Except String String
  | none => Except.error "AttributeError"
  | some s => Except.ok (pyLower s)

/-- `predict_clothing_item` (src/app.py).  The four attribute values are lowered
OUTSIDE the `try` block (so an `AttributeError` from a non-string value propagates to
the caller, modelled as `Except.error`); only `model.predict` sits inside the
`try/except` whose handler returns `"예측 실패"`.  A missing model for the category
returns `"예측 불가 (모델 누락)"` before anything else. -/
def predict_clothing_item (gender style color price : Option String) (item_type : String)
    (models : List (String × FittedPipeline)) : Except String String :=
  match List.lookup item_type models with
  | none => Except.ok "예측 불가 (모델 누락)"
  | some model =>
    match pyLowerE gender with
    | Except.error e => Except.error e
    | Except.ok g =>
      match pyLowerE style with
      | Except.error e => Except.error e
      | Except.ok s =>
        match pyLowerE color with
        | Except.error e => Except.error e
        | Except.ok c =>
          match pyLowerE price with
          | Except.error e => Except.error e
          | Except.ok p =>
            match pipelinePredictE model g s c p with
            | Except.ok label => Except.ok label
            | Except.error _ => Except.ok "예측 실패"

/-- A concrete fitted pipeline over exactly the vocabularies described by the spec
and the training prompt (src/app.py line 249 lists the trained colors), used to
instantiate the predictor claims. -/
def demoTopModel : FittedPipeline where
  vocab_gender := ["male", "female"]
  vocab_style := ["casual", "street", "classic", "sporty"]
  vocab_color := ["black", "white", "blue", "gray", "red", "brown", "green", "pink"]
  vocab_price := ["under_50", "50_100", "100_200", "200_300", "over_300"]
  classes := ["hoodie", "tshirt", "shirt"]
  pick := fun _ => 0

/-- A JSON decoder that always fails, standing for a response text that
`json.loads` cannot parse. -/
def noDecode : String → Option PayloadAttrs := fun _ => none

/-- A partially-filled payload: valid JSON that is not of the expected shape (only
the gender field present), as `json.loads` can yield it to the source. -/
def PARTIAL_PAYLOAD : PayloadAttrs :=
  { gender := some "male", color := none, style := none, price := none }

/-- A concrete `json.loads` behavior: the text "not json" raises (decodes to `none`),
any other text parses to the partially-filled payload above. -/
def demoDecode : String → Option PayloadAttrs := fun t =>
  if t = "not json" then none else some PARTIAL_PAYLOAD

/-- Substring test on strings (used to state that a URL contains a parameter). -/
def startsWithSeq : List Char → List Char → Bool
  | [], _ => true
  | _ :: _, [] => false
  | a :: as, b :: bs => a == b && startsWithSeq as bs

/-- `needle` occurs somewhere in `hay`. -/
def containsSeqAux (needle : List Char) : List Char → Bool
  | [] => needle.isEmpty
  | h :: t => startsWithSeq needle (h :: t) || containsSeqAux needle t

/-- `containsSeq hay needle`: `needle` is a substring of `hay`. -/
def containsSeq (hay needle : String) : Bool :=
  containsSeqAux needle.data hay.data

/-! ## Shared lemmas -/

/-- Any key other than the five trained tiers resolves like the cheapest tier
(guard on the first line of `get_price_min_max`). -/
theorem gpm_unknown (k : String) (h1 : k ≠ "under_50") (h2 : k ≠ "50_100")
    (h3 : k ≠ "100_200") (h4 : k ≠ "200_300") (h5 : k ≠ "over_300") :
    get_price_min_max k = ("0~50000", 7200, 50000) := by
  have hb : PRICE_BOUNDARIES k = none := by
    unfold PRICE_BOUNDARIES
    rw [if_neg h1, if_neg h2, if_neg h3, if_neg h4, if_neg h5]
  unfold get_price_min_max
  rw [hb]
  simp only [or_true, ite_true]
  decide

/-- The resolved `price` parameter string is never empty, for any input key. -/
theorem gpm_param_ne (k : String) : (get_price_min_max k).1 ≠ "" := by
  by_cases h1 : k = "under_50"
  · subst h1; decide
  by_cases h2 : k = "50_100"
  · subst h2; decide
  by_cases h3 : k = "100_200"
  · subst h3; decide
  by_cases h4 : k = "200_300"
  · subst h4; decide
  by_cases h5 : k = "over_300"
  · subst h5; decide
  rw [gpm_unknown k h1 h2 h3 h4 h5]
  decide

/-- A fitted pipeline always predicts one of its fitted class labels, for any string
attribute row, including rows with values outside the trained vocabularies. -/
theorem pipelinePredict_mem (m : FittedPipeline) (g s c p : String)
    (hne : m.classes ≠ []) : pipelinePredict m g s c p ∈ m.classes := by
  unfold pipelinePredict
  have hpos : 0 < m.classes.length := List.length_pos.mpr hne
  have hlt : m.pick (encodeRow m g s c p) % m.classes.length < m.classes.length :=
    Nat.mod_lt _ hpos
  rw [List.getD_eq_getElem m.classes "" hlt]
  exact List.getElem_mem hlt

/-! ## C1 -/

/-- C1 counterexample: with the top classifier loaded and the color "burgundy", which
is outside the trained color vocabulary, `predict_clothing_item` does NOT fail: the
one-hot encoder (handle_unknown="ignore", src/train_model.py) encodes the unseen value
as all zeros, inference raises nothing, and a trained label ("hoodie") is returned
silently instead of the "prediction failed" outcome `"예측 실패"`. -/
theorem C1_counterexample :
    demoTopModel.vocab_color.contains "burgundy" = false
    ∧ predict_clothing_item (some "female") (some "casual") (some "burgundy")
        (some "under_50") "top" [("top", demoTopModel)] = Except.ok "hoodie"
    ∧ ("hoodie" : String) ≠ "예측 실패" :=
  ⟨by decide, by rfl, by decide⟩

/-- C1 amended: for any attribute values (in particular values outside the trained
vocabulary) and any loaded classifier for the selected category, the Item Predictor
silently returns a label from the classifier's fitted label set; it never returns the
"prediction failed" outcome, because inference over the src/train_model.py pipeline
shape cannot raise. -/
theorem C1_predict_returns_trained_label (g s c p item_type : String)
    (models : List (String × FittedPipeline)) (m : FittedPipeline)
    (hm : List.lookup item_type models = some m)
    (hne : m.classes ≠ []) (hnf : "예측 실패" ∉ m.classes) :
    ∃ label, predict_clothing_item (some g) (some s) (some c) (some p) item_type models
        = Except.ok label ∧ label ∈ m.classes ∧ label ≠ "예측 실패" := by
  refine ⟨pipelinePredict m (pyLower g) (pyLower s) (pyLower c) (pyLower p), ?_, ?_, ?_⟩
  · unfold predict_clothing_item
    rw [hm]
    rfl
  · exact pipelinePredict_mem m _ _ _ _ hne
  · intro h
    exact hnf (h ▸ pipelinePredict_mem m _ _ _ _ hne)

/-- C1 witness: the amended statement evaluated at the out-of-vocabulary color input. -/
theorem C1_witness :
    ∃ label, predict_clothing_item (some "female") (some "casual") (some "burgundy")
        (some "under_50") "top" [("top", demoTopModel)]
        = Except.ok label ∧ label ∈ demoTopModel.classes ∧ label ≠ "예측 실패" :=
  C1_predict_returns_trained_label "female" "casual" "burgundy" "under_50" "top"
    [("top", demoTopModel)] demoTopModel rfl (by decide) (by decide)

/-! ## C2 -/

/-- C2 counterexample: two error conditions of the claim fail on the code.  With the
external client never initialized, the extractor does NOT report a null/absent
result: it returns the hard-coded, fully-populated fallback record (src/app.py line
233).  And when the response decodes as valid JSON that is not of the expected shape,
the extractor returns that raw payload unvalidated — here a record with only the
gender field populated and the color field absent, i.e. a partially-filled record,
not a null result. -/
theorem C2_counterexample :
    parse_user_text_gemini none (Except.error ()) noDecode = some FALLBACK_ATTRS
    ∧ parse_user_text_gemini none (Except.error ()) noDecode ≠ none
    ∧ parse_user_text_gemini (some ()) (Except.ok "wrong shape") demoDecode
        = some PARTIAL_PAYLOAD
    ∧ PARTIAL_PAYLOAD.gender ≠ none
    ∧ PARTIAL_PAYLOAD.color = none :=
  ⟨rfl, Option.some_ne_none _, rfl, by decide, rfl⟩

/-- C2 amended: if the external call throws, or the response text is not parseable
JSON at all (`json.loads` raises), the extractor returns `none`; if the client was
never initialized it instead returns the fixed complete fallback record {female,
black, casual, under_50}; and if the response parses as JSON of any shape — including
one with missing or null fields — that raw, possibly partially-filled payload is
returned unvalidated. -/
theorem C2_extractor_failure_modes (call : Except Unit String)
    (jsonDecode : String → Option PayloadAttrs) (t u : String) (r : PayloadAttrs)
    (hd : jsonDecode t = none) (hr : jsonDecode u = some r) :
    parse_user_text_gemini none call jsonDecode = some FALLBACK_ATTRS
    ∧ parse_user_text_gemini (some ()) (Except.error ()) jsonDecode = none
    ∧ parse_user_text_gemini (some ()) (Except.ok t) jsonDecode = none
    ∧ parse_user_text_gemini (some ()) (Except.ok u) jsonDecode = some r :=
  ⟨rfl, rfl, hd, hr⟩

/-- C2 witness: the amended statement at a concrete decoder that raises on one
response text and parses another to a partially-filled payload. -/
theorem C2_witness :
    parse_user_text_gemini none (Except.error ()) demoDecode = some FALLBACK_ATTRS
    ∧ parse_user_text_gemini (some ()) (Except.error ()) demoDecode = none
    ∧ parse_user_text_gemini (some ()) (Except.ok "not json") demoDecode = none
    ∧ parse_user_text_gemini (some ()) (Except.ok "wrong shape") demoDecode
        = some PARTIAL_PAYLOAD :=
  C2_extractor_failure_modes (Except.error ()) demoDecode "not json" "wrong shape"
    PARTIAL_PAYLOAD (by decide) (by decide)

/-! ## C3 -/

/-- C3 counterexample: for price tier 50_100 the resolver returns the range string
"50000~99999" (the table entry is (50000, 99999), src/app.py), not "50000~100000" as
the claim states, and the generated URL does not contain price=50000~100000. -/
theorem C3_counterexample :
    (generate_musinsa_link "top" "hoodie" "female" "casual" "black" "50_100").2.2
      = "50000~99999"
    ∧ ("50000~99999" : String) ≠ "50000~100000"
    ∧ containsSeq (generate_musinsa_link "top" "hoodie" "female" "casual" "black" "50_100").1
        "price=50000~100000" = false := by
  refine ⟨by decide, by decide, by decide⟩

/-- C3 amended: for the extracted attributes {female, black, casual, 50_100} and
predicted item "hoodie" in category "top", the resolver yields range "50000~99999"
with no minimum-floor adjustment (minPrice stays 50000), and the Search-Link Builder
yields a URL containing gender=F, gf=F, price=50000~99999, color=BLACK, and a keyword
parameter whose decoded value is "후드 티셔츠 블랙 casual". -/
theorem C3_end_to_end_amended :
    get_price_min_max "50_100" = ("50000~99999", 50000, 99999)
    ∧ (generate_musinsa_link "top" "hoodie" "female" "casual" "black" "50_100").2.1
        = "후드 티셔츠 블랙 casual"
    ∧ containsSeq (generate_musinsa_link "top" "hoodie" "female" "casual" "black" "50_100").1
        "gender=F" = true
    ∧ containsSeq (generate_musinsa_link "top" "hoodie" "female" "casual" "black" "50_100").1
        "gf=F" = true
    ∧ containsSeq (generate_musinsa_link "top" "hoodie" "female" "casual" "black" "50_100").1
        "price=50000~99999" = true
    ∧ containsSeq (generate_musinsa_link "top" "hoodie" "female" "casual" "black" "50_100").1
        "color=BLACK" = true
    ∧ containsSeq (generate_musinsa_link "top" "hoodie" "female" "casual" "black" "50_100").1
        ("keyword=" ++ quote_plus "후드 티셔츠 블랙 casual" "~") = true := by
  refine ⟨by decide, by decide, by decide, by decide, by decide, by decide, by decide⟩

/-! ## C4 -/

/-- C4 counterexample: the top tier over_300 is NOT open-ended upward: the resolver
returns the bounded range string "300000~10000000" with the finite cap 10000000 as
its maximum, not a range with no upper bound. -/
theorem C4_counterexample :
    get_price_min_max "over_300" = ("300000~10000000", 300000, 10000000)
    ∧ ("300000~10000000" : String) ≠ "300000~" := by
  refine ⟨by decide, by decide⟩

/-- C4 amended: all five defined tiers, including over_300, return a range string of
the form min~max with min strictly below max (over_300 has the large finite cap
10000000, it is not open-ended upward), and any input that is not one of the five
tier keys returns the same result as under_50. -/
theorem C4_price_tiers_amended (k : String) (h1 : k ≠ "under_50") (h2 : k ≠ "50_100")
    (h3 : k ≠ "100_200") (h4 : k ≠ "200_300") (h5 : k ≠ "over_300") :
    get_price_min_max "under_50" = ("0~50000", 7200, 50000)
    ∧ get_price_min_max "50_100" = ("50000~99999", 50000, 99999)
    ∧ get_price_min_max "100_200" = ("100000~199999", 100000, 199999)
    ∧ get_price_min_max "200_300" = ("200000~299999", 200000, 299999)
    ∧ get_price_min_max "over_300" = ("300000~10000000", 300000, 10000000)
    ∧ get_price_min_max k = get_price_min_max "under_50" := by
  refine ⟨by decide, by decide, by decide, by decide, by decide, ?_⟩
  rw [gpm_unknown k h1 h2 h3 h4 h5]
  decide

/-- C4 witness: the amended statement at the unrecognized key "banana". -/
theorem C4_witness :
    get_price_min_max "under_50" = ("0~50000", 7200, 50000)
    ∧ get_price_min_max "50_100" = ("50000~99999", 50000, 99999)
    ∧ get_price_min_max "100_200" = ("100000~199999", 100000, 199999)
    ∧ get_price_min_max "200_300" = ("200000~299999", 200000, 299999)
    ∧ get_price_min_max "over_300" = ("300000~10000000", 300000, 10000000)
    ∧ get_price_min_max "banana" = get_price_min_max "under_50" :=
  C4_price_tiers_amended "banana" (by decide) (by decide) (by decide) (by decide) (by decide)

/-! ## C5 -/

/-- C5 confirmed: an absent (empty) or unrecognized price tier falls back to
under_50: range string "0~50000", the zero lower bound replaced by the non-zero
site minimum 7200 in the minPrice slot, and the maximum staying 50000. -/
theorem C5_unknown_tier_fallback (k : String) (h1 : k ≠ "under_50") (h2 : k ≠ "50_100")
    (h3 : k ≠ "100_200") (h4 : k ≠ "200_300") (h5 : k ≠ "over_300") :
    get_price_min_max k = ("0~50000", MIN_MUSINSA_PRICE, 50000)
    ∧ MIN_MUSINSA_PRICE ≠ 0 :=
  ⟨gpm_unknown k h1 h2 h3 h4 h5, by decide⟩

/-- C5 witness: the fallback at the absent (empty-string) tier. -/
theorem C5_witness :
    get_price_min_max "" = ("0~50000", MIN_MUSINSA_PRICE, 50000)
    ∧ MIN_MUSINSA_PRICE ≠ 0 :=
  C5_unknown_tier_fallback "" (by decide) (by decide) (by decide) (by decide) (by decide)

/-! ## C6 -/

/-- C6 counterexample: at the input tuple whose predicted item, color and style are
all blank, the keyword string is empty, so the builder emits NO keyword parameter at
all — the URL does not contain exactly one keyword parameter. -/
theorem C6_counterexample :
    containsSeq (generate_musinsa_link "top" "" "female" "" "" "").1 "keyword=" = false
    ∧ (musinsa_params "top" "" "female" "" "" "").filter (fun kv => kv.1 == "keyword")
        = [] := by
  refine ⟨by decide, by decide⟩

/-- C6 amended: for every input tuple the output URL starts with the fixed base path,
and the parameter list carries exactly one keyword parameter — whose decoded value is
the space-joined blank-filtering concatenation of {localized item name, localized
color name, style} in that fixed order — whenever that concatenation is non-empty;
when it is empty the keyword parameter is omitted entirely. -/
theorem C6_keyword_param_amended (item_type item_name gender style color price : String) :
    (∃ rest, (generate_musinsa_link item_type item_name gender style color price).1
        = MUSINSA_BASE_URL ++ rest)
    ∧ (musinsa_params item_type item_name gender style color price).filter
          (fun kv => kv.1 == "keyword")
        = (if musinsa_search_keywords item_name color style ≠ "" then
            [("keyword", musinsa_search_keywords item_name color style)] else []) := by
  refine ⟨⟨"?" ++ urlencode (musinsa_params item_type item_name gender style color price) "~",
    rfl⟩, ?_⟩
  unfold musinsa_params
  simp only [List.filter_append]
  split_ifs <;> simp

/-! ## C7 -/

/-- C7 confirmed: the builder is a total function (it never raises — modelled by its
plain, exception-free return type), and each attribute independently: whenever the
gender, the color, or the category value is absent or not found in its static code
table, that attribute's own filter parameter is omitted from the parameter list —
regardless of the other attributes — while the link is still constructed on the fixed
base path. -/
theorem C7_unknown_values_omit_filters (item_type item_name gender style color price : String) :
    (MUSINSA_GENDER_CODE gender = none →
      "gender" ∉ (musinsa_params item_type item_name gender style color price).map Prod.fst
      ∧ "gf" ∉ (musinsa_params item_type item_name gender style color price).map Prod.fst)
    ∧ (MUSINSA_COLOR_CODES color = none →
      "color" ∉ (musinsa_params item_type item_name gender style color price).map Prod.fst)
    ∧ (MUSINSA_CATEGORY_CODES item_type = none →
      "category" ∉ (musinsa_params item_type item_name gender style color price).map Prod.fst)
    ∧ (∃ rest, (generate_musinsa_link item_type item_name gender style color price).1
        = MUSINSA_BASE_URL ++ rest) := by
  refine ⟨?_, ?_, ?_,
    ⟨"?" ++ urlencode (musinsa_params item_type item_name gender style color price) "~", rfl⟩⟩
  · intro hg
    unfold musinsa_params
    rw [hg]
    simp only [Option.getD_none]
    constructor <;> (split_ifs <;> simp_all)
  · intro hc
    unfold musinsa_params
    rw [hc]
    simp only [Option.getD_none]
    split_ifs <;> simp_all
  · intro ha
    unfold musinsa_params
    rw [ha]
    simp only [Option.getD_none]
    split_ifs <;> simp_all

/-- C7 witness: at a concrete input with an unknown category, an absent gender and an
untrained color, each implication of the theorem fires: every one of those filters is
omitted while the link is still built. -/
theorem C7_witness :
    "gender" ∉ (musinsa_params "hat" "beanie" "" "casual" "burgundy" "50_100").map Prod.fst
    ∧ "gf" ∉ (musinsa_params "hat" "beanie" "" "casual" "burgundy" "50_100").map Prod.fst
    ∧ "color" ∉ (musinsa_params "hat" "beanie" "" "casual" "burgundy" "50_100").map Prod.fst
    ∧ "category" ∉ (musinsa_params "hat" "beanie" "" "casual" "burgundy" "50_100").map Prod.fst
    ∧ (∃ rest, (generate_musinsa_link "hat" "beanie" "" "casual" "burgundy" "50_100").1
        = MUSINSA_BASE_URL ++ rest) := by
  have h := C7_unknown_values_omit_filters "hat" "beanie" "" "casual" "burgundy" "50_100"
  exact ⟨(h.1 (by decide)).1, (h.1 (by decide)).2, h.2.1 (by decide), h.2.2.1 (by decide),
    h.2.2.2⟩

/-! ## C8 -/

/-- C8 confirmed: the Query Refiner returns its input unchanged when no external
client is configured, and returns the original input unchanged when the external call
fails; both fallback paths are plain returns (the model is a total function — nothing
is raised to the caller). -/
theorem C8_refiner_fallback (product_name : String) (call : Except Unit String) (e : Unit) :
    refine_search_query_gemini none call product_name = product_name
    ∧ refine_search_query_gemini (some ()) (Except.error e) product_name = product_name :=
  ⟨rfl, rfl⟩

/-! ## C9 -/

/-- C9 confirmed: for every input — including an empty or unrecognized price string —
the parameter list always contains the price, minPrice and maxPrice parameters
(the resolved price string is never empty, so the guard in step B always passes),
whereas at the all-blank input the gender, color, category and keyword filters are
all dropped and ONLY the three price parameters remain. -/
theorem C9_price_filter_always_present (item_type item_name gender style color price : String) :
    "price" ∈ (musinsa_params item_type item_name gender style color price).map Prod.fst
    ∧ "minPrice" ∈ (musinsa_params item_type item_name gender style color price).map Prod.fst
    ∧ "maxPrice" ∈ (musinsa_params item_type item_name gender style color price).map Prod.fst
    ∧ (musinsa_params "" "" "" "" "" "").map Prod.fst = ["price", "minPrice", "maxPrice"] := by
  refine ⟨?_, ?_, ?_, by decide⟩ <;>
    · unfold musinsa_params
      rw [if_pos (gpm_param_ne price)]
      simp

/-! ## C10 -/

/-- C10 counterexample: with a null gender attribute but the selected category's model
missing, `predict_clothing_item` does NOT raise: it returns the model-missing outcome
before ever touching the attributes, so a non-string attribute value does not always
reach the lowercasing step. -/
theorem C10_counterexample :
    predict_clothing_item none (some "casual") (some "black") (some "under_50") "top" []
      = Except.ok "예측 불가 (모델 누락)"
    ∧ predict_clothing_item none (some "casual") (some "black") (some "under_50") "top" []
      ≠ Except.error "AttributeError" :=
  ⟨rfl, fun h => Except.noConfusion h⟩

/-- C10 amended: provided the selected category's classifier is loaded, a null among
the four attribute values makes `predict_clothing_item` raise an uncaught
AttributeError to its caller (the lowercasing happens before the try block, whose
except covers only the inference call), instead of returning the "prediction failed"
outcome. -/
theorem C10_null_attribute_raises (gender style color price : Option String)
    (item_type : String) (models : List (String × FittedPipeline)) (m : FittedPipeline)
    (hm : List.lookup item_type models = some m)
    (hnull : gender = none ∨ style = none ∨ color = none ∨ price = none) :
    predict_clothing_item gender style color price item_type models
      = Except.error "AttributeError" := by
  unfold predict_clothing_item
  rw [hm]
  rcases gender with _ | g <;> rcases style with _ | s <;>
    rcases color with _ | c <;> rcases price with _ | p <;>
    simp_all [pyLowerE]

/-- C10 witness: a null gender with the top model loaded raises to the caller. -/
theorem C10_witness :
    predict_clothing_item none (some "casual") (some "black") (some "under_50") "top"
      [("top", demoTopModel)] = Except.error "AttributeError" :=
  C10_null_attribute_raises none (some "casual") (some "black") (some "under_50") "top"
    [("top", demoTopModel)] demoTopModel rfl (Or.inl rfl)
